import Mathlib

/-!
Verification development for the BrowserCam capture engine.

Shallow embedding of the camera library (src/lib/camera.ts) and the camera
page's handlers (src/app/camera/page.tsx): the capability normalizer of
`getCameraCapabilities`, the constraint objects built by `startCamera` and
`applySettingsToStream`, the settings handlers (`handleSettingChange`, the
Auto buttons, the aspect-ratio buttons), the visibility-recovery routine
`handleVisibilityChange`, and `handleSwitchCamera`.

Modelling conventions: JavaScript numbers are rationals (`ℚ`); optionally
present record fields are `Option`; JavaScript truthiness is modelled
explicitly where the source relies on it (an object is truthy whenever
present, a number is falsy at 0, a string is falsy when empty). Effectful
steps (applying constraints to a live track, stopping a stream, acquiring a
stream) are recorded as explicit action traces, with the success of each
platform call supplied as a boolean oracle parameter.
-/

/-- A raw numeric range inside the platform's capability object
(`track.getCapabilities()`): at runtime each bound may be individually
missing, whatever the ambient TypeScript declaration promises. -/
structure RawRange where
  min : Option ℚ
  max : Option ℚ
  step : Option ℚ
deriving DecidableEq, Repr

/-- The raw capability object of one video track, every field optionally
present (mirrors the `MediaTrackCapabilities` fields read by
`getCameraCapabilities` in src/lib/camera.ts). -/
structure RawCapabilities where
  frameRate : Option RawRange := none
  exposureMode : Option (List String) := none
  focusMode : Option (List String) := none
  iso : Option RawRange := none
  whiteBalanceMode : Option (List String) := none
  zoom : Option RawRange := none
  aspectRatio : Option RawRange := none
  colorTemperature : Option RawRange := none
  deviceId : Option String := none
  exposureCompensation : Option RawRange := none
  exposureTime : Option RawRange := none
  facingMode : Option (List String) := none
  focusDistance : Option RawRange := none
  groupId : Option String := none
  height : Option RawRange := none
  resizeMode : Option (List String) := none
  torch : Option Bool := none
  width : Option RawRange := none
deriving DecidableEq, Repr

/-- A `{min, max}` range rebuilt by the normalizer: for `frameRate`,
`aspectRatio`, `height` and `width` the source constructs a fresh object
holding exactly the two bounds. -/
structure BoundRange where
  min : ℚ
  max : ℚ
deriving DecidableEq, Repr

/-- The normalized `CameraCapabilities` record returned by
`getCameraCapabilities` (src/lib/camera.ts, lines 191-294): the four
rebuilt ranges are `BoundRange`; the other range fields are the raw
objects assigned through unchanged, so they keep the `RawRange` shape. -/
structure CameraCapabilities where
  aspectRatio : Option BoundRange := none
  colorTemperature : Option RawRange := none
  deviceId : Option String := none
  exposureCompensation : Option RawRange := none
  exposureMode : Option (List String) := none
  exposureTime : Option RawRange := none
  facingMode : Option (List String) := none
  focusDistance : Option RawRange := none
  focusMode : Option (List String) := none
  frameRate : Option BoundRange := none
  groupId : Option String := none
  height : Option BoundRange := none
  iso : Option RawRange := none
  resizeMode : Option (List String) := none
  torch : Option Bool := none
  whiteBalanceMode : Option (List String) := none
  width : Option BoundRange := none
  zoom : Option RawRange := none
deriving DecidableEq, Repr

/-- The guard `capabilities.f && capabilities.f.min !== undefined &&
capabilities.f.max !== undefined` followed by rebuilding `{min, max}`. -/
def bothBounds : Option RawRange → Option BoundRange
  | some r =>
    match r.min, r.max with
    | some lo, some hi => some ⟨lo, hi⟩
    | _, _ => none
  | none => none

/-- JavaScript truthiness of an optional string: `if (s)` rejects both
`undefined` and the empty string. -/
def truthyString : Option String → Option String
  | some s => if s = "" then none else some s
  | none => none

/-- The pure tail of `getCameraCapabilities` (src/lib/camera.ts, lines
191-294): the if-chain that copies the raw capability object into the
returned `CameraCapabilities`. `frameRate`, `aspectRatio`, `height` and
`width` are included only when both bounds are defined; the remaining
range, enum and boolean fields are assigned through whenever the raw field
is truthy (`torch` on `!== undefined`). -/
def normalizeCapabilities (c : RawCapabilities) : CameraCapabilities :=
  { frameRate := bothBounds c.frameRate
    exposureMode := c.exposureMode
    focusMode := c.focusMode
    iso := c.iso
    whiteBalanceMode := c.whiteBalanceMode
    zoom := c.zoom
    aspectRatio := bothBounds c.aspectRatio
    colorTemperature := c.colorTemperature
    deviceId := truthyString c.deviceId
    exposureCompensation := c.exposureCompensation
    exposureTime := c.exposureTime
    facingMode := c.facingMode
    focusDistance := c.focusDistance
    groupId := truthyString c.groupId
    height := bothBounds c.height
    resizeMode := c.resizeMode
    torch := c.torch
    width := bothBounds c.width }

/-- A step of the platform interaction performed by `getCameraCapabilities`
while probing a device. -/
inductive ProbeStep where
  | getUserMedia
  | readCapabilities
  | readSettings
  | stopTrack
deriving DecidableEq, Repr

/-- `getCameraCapabilities` (src/lib/camera.ts, lines 168-299) as a trace of
platform steps plus its result. `raw = none` is the run where the acquired
probe stream has no video track: the function throws ("No video track
found") without stopping anything. Otherwise it reads capabilities and
settings, stops the probe track, and only then builds the result. -/
def getCameraCapabilitiesRun (raw : Option RawCapabilities) :
    List ProbeStep × Option CameraCapabilities :=
  match raw with
  | none => ([ProbeStep.getUserMedia], none)
  | some r =>
      ([ProbeStep.getUserMedia, ProbeStep.readCapabilities,
        ProbeStep.readSettings, ProbeStep.stopTrack],
       some (normalizeCapabilities r))

/-- The sparse `CameraSettings` record (src/lib/camera.ts, lines 116-131):
each field optionally commanded. -/
structure CameraSettings where
  aspectRatio : Option ℚ := none
  colorTemperature : Option ℚ := none
  exposureCompensation : Option ℚ := none
  exposureMode : Option String := none
  exposureTime : Option ℚ := none
  focusDistance : Option ℚ := none
  focusMode : Option String := none
  frameRate : Option ℚ := none
  height : Option ℚ := none
  iso : Option ℚ := none
  torch : Option Bool := none
  whiteBalanceMode : Option String := none
  width : Option ℚ := none
  zoom : Option ℚ := none
deriving DecidableEq, Repr

/-- One `(key, value)` update as passed to `handleSettingChange`; each key
carries the value type the page's controls pass for it. -/
inductive SettingChange where
  | aspectRatio (v : ℚ)
  | colorTemperature (v : ℚ)
  | exposureCompensation (v : ℚ)
  | exposureMode (v : String)
  | exposureTime (v : ℚ)
  | focusDistance (v : ℚ)
  | focusMode (v : String)
  | frameRate (v : ℚ)
  | height (v : ℚ)
  | iso (v : ℚ)
  | torch (v : Bool)
  | whiteBalanceMode (v : String)
  | width (v : ℚ)
  | zoom (v : ℚ)
deriving DecidableEq, Repr

/-- The computed-property spread `{ ...settings, [key]: value }`. -/
def setField (s : CameraSettings) : SettingChange → CameraSettings
  | .aspectRatio v => { s with aspectRatio := some v }
  | .colorTemperature v => { s with colorTemperature := some v }
  | .exposureCompensation v => { s with exposureCompensation := some v }
  | .exposureMode v => { s with exposureMode := some v }
  | .exposureTime v => { s with exposureTime := some v }
  | .focusDistance v => { s with focusDistance := some v }
  | .focusMode v => { s with focusMode := some v }
  | .frameRate v => { s with frameRate := some v }
  | .height v => { s with height := some v }
  | .iso v => { s with iso := some v }
  | .torch v => { s with torch := some v }
  | .whiteBalanceMode v => { s with whiteBalanceMode := some v }
  | .width v => { s with width := some v }
  | .zoom v => { s with zoom := some v }

def SettingChange.isExposureTime : SettingChange → Bool
  | .exposureTime _ => true
  | _ => false

def SettingChange.isIso : SettingChange → Bool
  | .iso _ => true
  | _ => false

def SettingChange.isFocusDistance : SettingChange → Bool
  | .focusDistance _ => true
  | _ => false

/-- `modes?.includes(m)` under optional chaining: `undefined` is falsy. -/
def jsIncludes (modes : Option (List String)) (m : String) : Bool :=
  match modes with
  | some l => l.contains m
  | none => false

/-- `capabilities?.exposureMode?.includes("manual")`. -/
def capExposureManual (caps : Option CameraCapabilities) : Bool :=
  match caps with
  | some c => jsIncludes c.exposureMode "manual"
  | none => false

/-- `capabilities?.focusMode?.includes("manual")`. -/
def capFocusManual (caps : Option CameraCapabilities) : Bool :=
  match caps with
  | some c => jsIncludes c.focusMode "manual"
  | none => false

/-- The settings-merging part of `handleSettingChange`
(src/app/camera/page.tsx, lines 415-434): spread the new key in, then force
`exposureMode` to "manual" when exposure time or ISO changed and the
capabilities list "manual", and force `focusMode` to "manual" when focus
distance changed and the focus capabilities list "manual". No other key
forces a mode (in particular, `colorTemperature` does not touch
`whiteBalanceMode`). -/
def handleSettingChange (caps : Option CameraCapabilities)
    (settings : CameraSettings) (ch : SettingChange) : CameraSettings :=
  let s1 := setField settings ch
  let s2 :=
    if ch.isExposureTime && capExposureManual caps then
      { s1 with exposureMode := some "manual" }
    else s1
  let s3 :=
    if ch.isIso && capExposureManual caps then
      { s2 with exposureMode := some "manual" }
    else s2
  if ch.isFocusDistance && capFocusManual caps then
    { s3 with focusMode := some "manual" }
  else s3

/-- JavaScript truthiness of an optional number: `undefined` and `0` are
falsy. -/
def jsTruthyNum : Option ℚ → Bool
  | some v => !(v == 0)
  | none => false

/-- The ISO "Auto" button (src/app/camera/page.tsx, lines 998-1029): delete
`iso`; if `newSettings.exposureTime` is falsy, set `exposureMode` to
"continuous". The stream-apply call that follows only logs on failure and
does not change the settings, so it is omitted here. -/
def isoAutoClick (settings : CameraSettings) : CameraSettings :=
  let newSettings := { settings with iso := none }
  if !(jsTruthyNum newSettings.exposureTime) then
    { newSettings with exposureMode := some "continuous" }
  else newSettings

/-- The exposure-time "Auto" button (src/app/camera/page.tsx, lines
1178-1209): delete `exposureTime`; if `newSettings.iso` is falsy, set
`exposureMode` to "continuous". -/
def exposureTimeAutoClick (settings : CameraSettings) : CameraSettings :=
  let newSettings := { settings with exposureTime := none }
  if !(jsTruthyNum newSettings.iso) then
    { newSettings with exposureMode := some "continuous" }
  else newSettings

/-- The default-settings computation of `initCamera`
(src/app/camera/page.tsx, lines 166-189): frame rate defaults to the
capability maximum, the selected aspect ratio is always written, and the
exposure and focus modes default to "continuous" when supported, else to
the first listed mode. -/
def initCameraDefaults (caps : CameraCapabilities)
    (selectedAspectRatio : ℚ) : CameraSettings :=
  let d : CameraSettings := {}
  let d :=
    match caps.frameRate with
    | some fr => { d with frameRate := some fr.max }
    | none => d
  let d := { d with aspectRatio := some selectedAspectRatio }
  let d :=
    match caps.exposureMode with
    | some modes =>
        if modes.contains "continuous" then
          { d with exposureMode := some "continuous" }
        else if 0 < modes.length then { d with exposureMode := modes.head? }
        else d
    | none => d
  match caps.focusMode with
  | some modes =>
      if modes.contains "continuous" then
        { d with focusMode := some "continuous" }
      else if 0 < modes.length then { d with focusMode := modes.head? }
      else d
  | none => d

/-- A key of a built constraint object. -/
inductive CKey where
  | deviceId
  | frameRate
  | width
  | height
  | aspectRatio
  | colorTemperature
  | exposureCompensation
  | exposureMode
  | exposureTime
  | focusDistance
  | focusMode
  | iso
  | torch
  | whiteBalanceMode
  | zoom
deriving DecidableEq, Repr

/-- A value of a built constraint object; `exact` is the `{ exact: id }`
device-id form. -/
inductive CVal where
  | num (q : ℚ)
  | str (s : String)
  | bool (b : Bool)
  | exact (s : String)
deriving DecidableEq, Repr

/-- A spread guarded by number truthiness: `...(settings?.f && { f })`. -/
def numEntry (k : CKey) (q : Option ℚ) : List (CKey × CVal) :=
  match q with
  | some v => if v = 0 then [] else [(k, CVal.num v)]
  | none => []

/-- An assignment guarded by `!== undefined`: `if (settings.f !== undefined)
constraints.f = settings.f`. -/
def definedNumEntry (k : CKey) (q : Option ℚ) : List (CKey × CVal) :=
  match q with
  | some v => [(k, CVal.num v)]
  | none => []

/-- A string assignment guarded by truthiness: `if (settings.f)
constraints.f = settings.f`. -/
def truthyStrEntry (k : CKey) (s : Option String) : List (CKey × CVal) :=
  match s with
  | some v => if v = "" then [] else [(k, CVal.str v)]
  | none => []

/-- A boolean assignment guarded by `!== undefined`. -/
def definedBoolEntry (k : CKey) (b : Option Bool) : List (CKey × CVal) :=
  match b with
  | some v => [(k, CVal.bool v)]
  | none => []

/-- The truthiness-guarded spread `...(deviceId && { deviceId: { exact:
deviceId } })`. -/
def exactStrEntry (k : CKey) (s : Option String) : List (CKey × CVal) :=
  match s with
  | some v => if v = "" then [] else [(k, CVal.exact v)]
  | none => []

/-- The acquisition-time `video` constraint object built by `startCamera`
(src/lib/camera.ts, lines 312-319): conditional spreads for the device id
and for frame rate, width and height (each spread guarded by JavaScript
truthiness). -/
def acquisitionConstraints (deviceId : Option String)
    (settings : Option CameraSettings) : List (CKey × CVal) :=
  exactStrEntry CKey.deviceId deviceId ++
  numEntry CKey.frameRate (settings.bind CameraSettings.frameRate) ++
  numEntry CKey.width (settings.bind CameraSettings.width) ++
  numEntry CKey.height (settings.bind CameraSettings.height)

/-- The post-acquisition `advancedConstraints` object built by `startCamera`
(src/lib/camera.ts, lines 330-375), in source assignment order. -/
def startCameraAdvancedConstraints (s : CameraSettings) :
    List (CKey × CVal) :=
  definedNumEntry CKey.aspectRatio s.aspectRatio ++
  definedNumEntry CKey.colorTemperature s.colorTemperature ++
  definedNumEntry CKey.exposureCompensation s.exposureCompensation ++
  truthyStrEntry CKey.exposureMode s.exposureMode ++
  definedNumEntry CKey.exposureTime s.exposureTime ++
  definedNumEntry CKey.focusDistance s.focusDistance ++
  truthyStrEntry CKey.focusMode s.focusMode ++
  definedNumEntry CKey.iso s.iso ++
  definedBoolEntry CKey.torch s.torch ++
  truthyStrEntry CKey.whiteBalanceMode s.whiteBalanceMode ++
  definedNumEntry CKey.zoom s.zoom

/-- The `mediaTrackConstraints` object built by `applySettingsToStream`
(src/lib/camera.ts, lines 479-494). -/
def applyMediaTrackConstraints (s : CameraSettings) : List (CKey × CVal) :=
  definedNumEntry CKey.aspectRatio s.aspectRatio ++
  definedNumEntry CKey.frameRate s.frameRate ++
  definedNumEntry CKey.height s.height ++
  definedNumEntry CKey.width s.width

/-- The `imageCaptureSettings` object built by `applySettingsToStream`
(src/lib/camera.ts, lines 496-526). -/
def applyImageCaptureConstraints (s : CameraSettings) : List (CKey × CVal) :=
  definedNumEntry CKey.zoom s.zoom ++
  definedNumEntry CKey.colorTemperature s.colorTemperature ++
  definedNumEntry CKey.exposureCompensation s.exposureCompensation ++
  truthyStrEntry CKey.exposureMode s.exposureMode ++
  definedNumEntry CKey.exposureTime s.exposureTime ++
  definedNumEntry CKey.focusDistance s.focusDistance ++
  truthyStrEntry CKey.focusMode s.focusMode ++
  definedNumEntry CKey.iso s.iso ++
  definedBoolEntry CKey.torch s.torch ++
  truthyStrEntry CKey.whiteBalanceMode s.whiteBalanceMode

/-- Whether a built constraint object holds key `k`. -/
def hasKey (k : CKey) (l : List (CKey × CVal)) : Bool :=
  l.any fun p => p.1 == k

/-- An effectful step of the settings-application / session machinery. -/
inductive CamAction where
  | applyToStream (s : CameraSettings)
  | stopStream
  | acquireStream (s : CameraSettings)
  | attachSink
  | surfaceError
deriving DecidableEq, Repr

/-- The page state relevant to settings application: the current settings
record, the live stream handle (`none` after `setStream(null)`), the
selected aspect ratio, and whether the error screen has been raised. -/
structure PageState where
  settings : CameraSettings
  stream : Option ℕ
  selectedAspectRatio : ℚ := 16 / 9
  errorShown : Bool := false
deriving DecidableEq, Repr

/-- `handleSettingChange` with its stream interaction
(src/app/camera/page.tsx, lines 415-444): merge the change, store the new
settings, then — if a stream is live — attempt `applySettingsToStream` with
the merged record. The catch block only logs, so the stored settings and
the stream are the same whether the apply succeeded (`applyOk = true`) or
failed; `applyOk` only reflects the platform call's outcome. -/
def handleSettingChangeRun (caps : Option CameraCapabilities)
    (st : PageState) (ch : SettingChange) (applyOk : Bool) :
    PageState × List CamAction :=
  let newSettings := handleSettingChange caps st.settings ch
  match st.stream, applyOk with
  | some _, _ => ({ st with settings := newSettings },
      [CamAction.applyToStream newSettings])
  | none, _ => ({ st with settings := newSettings }, [])

/-- An aspect-ratio button's onClick (src/app/camera/page.tsx, lines
1252-1300): record the selected ratio; when a stream is live, merge the
ratio into the settings and try `applySettingsToStream`; on rejection fall
back once to stopping the stream, re-acquiring via `startCamera` with the
full merged settings, and re-attaching to the video sink (`applyOk`,
`fallbackOk` are the two platform calls' outcomes; `newStreamId` the
re-acquired stream). When the fallback also fails the stream stays
detached and an error is surfaced. -/
def aspectRatioClickRun (st : PageState) (ratio : ℚ)
    (applyOk fallbackOk : Bool) (newStreamId : ℕ) :
    PageState × List CamAction :=
  let st := { st with selectedAspectRatio := ratio }
  match st.stream with
  | none => (st, [])
  | some _ =>
    let newSettings := { st.settings with aspectRatio := some ratio }
    if applyOk then
      ({ st with settings := newSettings },
       [CamAction.applyToStream newSettings])
    else if fallbackOk then
      ({ st with settings := newSettings, stream := some newStreamId },
       [CamAction.applyToStream newSettings, CamAction.stopStream,
        CamAction.acquireStream newSettings, CamAction.attachSink])
    else
      ({ st with
          settings := newSettings
          stream := none
          errorShown := true },
       [CamAction.applyToStream newSettings, CamAction.stopStream,
        CamAction.acquireStream newSettings, CamAction.surfaceError])

/-- Recognizes a re-acquisition action in a trace. -/
def CamAction.isAcquire : CamAction → Bool
  | .acquireStream _ => true
  | _ => false

/-- Recognizes a stop-stream action in a trace. -/
def CamAction.isStop : CamAction → Bool
  | .stopStream => true
  | _ => false

/-- The health of a live video track: `readyState` is "live" or "ended". -/
structure TrackState where
  readyState : String
  enabled : Bool
deriving DecidableEq, Repr

/-- The sink (video element) playback state read by the recovery routine. -/
structure VideoElemState where
  paused : Bool
  ended : Bool
  readyState : ℕ
deriving DecidableEq, Repr

/-- Outcome of the attempted `video.play()` resume. -/
inductive PlayOutcome where
  | ok
  | err (name : String)
deriving DecidableEq, Repr

/-- An action taken by the visibility-recovery routine. -/
inductive VisAction where
  | stopOldStream
  | acquire (s : CameraSettings)
  | resumePlay
deriving DecidableEq, Repr

/-- `handleVisibilityChange` (src/app/camera/page.tsx, lines 279-381) as the
list of actions it performs. Guard: nothing happens while hidden, with no
stream, or with no video element; an empty track list also does nothing.
If the first track ended or is disabled: stop the old stream and acquire a
fresh one with the current settings, unchanged. Otherwise, if the sink is
paused, ended or under-buffered (`readyState < 2`): resume playback; only
when the resume fails with an error other than `AbortError` does the
routine stop the stream and re-acquire. -/
def handleVisibilityChange (hidden : Bool)
    (stream : Option (List TrackState)) (videoPresent : Bool)
    (settings : CameraSettings) (video : VideoElemState)
    (play : PlayOutcome) : List VisAction :=
  if hidden then []
  else match stream with
  | none => []
  | some tracks =>
    if !videoPresent then []
    else match tracks.head? with
    | none => []
    | some track =>
      if track.readyState = "ended" ∨ track.enabled = false then
        [VisAction.stopOldStream, VisAction.acquire settings]
      else if video.paused ∨ video.ended ∨ video.readyState < 2 then
        match play with
        | .ok => [VisAction.resumePlay]
        | .err n =>
            if n = "AbortError" then [VisAction.resumePlay]
            else [VisAction.resumePlay, VisAction.stopOldStream,
                  VisAction.acquire settings]
      else []

/-- One enumerated camera (src/lib/camera.ts, lines 415-420). -/
structure CameraDevice where
  deviceId : String
  label : String
  groupId : String
  kind : String := "videoinput"
deriving DecidableEq, Repr

/-- JavaScript `Array.prototype.findIndex`: the first matching index, or -1. -/
def jsFindIndex (cameras : List CameraDevice) (selected : String) : Int :=
  match cameras.findIdx? (fun c => c.deviceId == selected) with
  | some i => (i : Int)
  | none => -1

/-- `handleSwitchCamera` (src/app/camera/page.tsx, lines 509-519), returning
the resulting selected device id: with one or zero cameras it returns the
current selection unchanged; otherwise it advances to `(currentIndex + 1) %
cameras.length` in the enumerated list. -/
def handleSwitchCamera (cameras : List CameraDevice)
    (selectedCamera : String) : String :=
  if cameras.length ≤ 1 then selectedCamera
  else
    let currentIndex := jsFindIndex cameras selectedCamera
    let nextIndex := (currentIndex + 1) % (cameras.length : Int)
    match cameras.get? nextIndex.toNat with
    | some nextCamera => nextCamera.deviceId
    | none => selectedCamera

/-- A raw capability object whose `iso` range has only its lower bound. -/
def rawIsoPartial : RawCapabilities :=
  { iso := some { min := some 100, max := none, step := none } }

/-- The end-to-end scenario device of the spec: frame rate 15-30, focus
modes continuous and manual, focus distance 0 to 1 in steps of 0.01. -/
def scenarioRaw : RawCapabilities :=
  { frameRate := some { min := some 15, max := some 30, step := none }
    focusMode := some ["continuous", "manual"]
    focusDistance := some { min := some 0, max := some 1, step := some (1 / 100) } }

/-- The scenario device's normalized capabilities. -/
def scenarioCaps : CameraCapabilities := normalizeCapabilities scenarioRaw

/-- The scenario's default settings on device selection (the page mounts
with `selectedAspectRatio` 16:9). -/
def scenarioDefaults : CameraSettings := initCameraDefaults scenarioCaps (16 / 9)

/-- The scenario's settings after `handleSettingChange("focusDistance", 0.3)`. -/
def scenarioResult : CameraSettings :=
  handleSettingChange (some scenarioCaps) scenarioDefaults
    (SettingChange.focusDistance (3 / 10))

/-- The result record exactly as the claim writes it:
`{frameRate: 30, focusMode: "manual", focusDistance: 0.3}` and nothing else. -/
def claimedC8Result : CameraSettings :=
  { frameRate := some 30
    focusMode := some "manual"
    focusDistance := some (3 / 10) }

/-- Capabilities whose white-balance modes include "manual". -/
def capsWithManualWB : CameraCapabilities :=
  { whiteBalanceMode := some ["continuous", "manual"] }

/-- Settings currently in automatic white balance. -/
def settingsAutoWB : CameraSettings :=
  { whiteBalanceMode := some "continuous" }

/-- Capabilities listing manual exposure and manual focus. -/
def capsManualBoth : CameraCapabilities :=
  { exposureMode := some ["continuous", "manual"]
    focusMode := some ["continuous", "manual"] }

/-- Settings with manual exposure active through both ISO and a zero
exposure time (0 is a present, commanded value, but falsy in JavaScript). -/
def settingsZeroShutter : CameraSettings :=
  { iso := some 100
    exposureTime := some 0
    exposureMode := some "manual" }

/-- Settings with manual exposure active through nonzero ISO and exposure
time. -/
def settingsBothManual : CameraSettings :=
  { iso := some 400
    exposureTime := some 8
    exposureMode := some "manual" }

/-- A live page state: frame rate 30 commanded, stream attached. -/
def pageStateLive : PageState :=
  { settings := { frameRate := some 30 }
    stream := some 0 }

/-- Three enumerated cameras, for exercising the round-robin switch. -/
def threeCameras : List CameraDevice :=
  [{ deviceId := "cam-a", label := "Lens 1", groupId := "g" },
   { deviceId := "cam-b", label := "Lens 2", groupId := "g" },
   { deviceId := "cam-c", label := "Lens 3", groupId := "g" }]

theorem bothBounds_isSome {r : Option RawRange}
    (h : (bothBounds r).isSome = true) :
    (r.bind RawRange.min).isSome = true ∧
    (r.bind RawRange.max).isSome = true := by
  rcases r with _ | ⟨mi, ma, st⟩
  · simp [bothBounds] at h
  · rcases mi with _ | lo <;> rcases ma with _ | hi <;>
      simp_all [bothBounds]

/-- C1, corrected: only the rebuilt ranges (`frameRate`, `aspectRatio`,
`width`, `height`) are guarded on both `min` and `max` being defined on the
raw source; the six pass-through ranges (`iso`, `zoom`, `colorTemperature`,
`exposureCompensation`, `exposureTime`, `focusDistance`) are copied into
the returned capabilities verbatim whenever present on the raw object, even
when only one (or neither) of their bounds is defined. -/
theorem claim_C1 (c : RawCapabilities) :
    ((normalizeCapabilities c).frameRate.isSome = true →
      (c.frameRate.bind RawRange.min).isSome = true ∧
      (c.frameRate.bind RawRange.max).isSome = true) ∧
    ((normalizeCapabilities c).aspectRatio.isSome = true →
      (c.aspectRatio.bind RawRange.min).isSome = true ∧
      (c.aspectRatio.bind RawRange.max).isSome = true) ∧
    ((normalizeCapabilities c).width.isSome = true →
      (c.width.bind RawRange.min).isSome = true ∧
      (c.width.bind RawRange.max).isSome = true) ∧
    ((normalizeCapabilities c).height.isSome = true →
      (c.height.bind RawRange.min).isSome = true ∧
      (c.height.bind RawRange.max).isSome = true) ∧
    (normalizeCapabilities c).iso = c.iso ∧
    (normalizeCapabilities c).zoom = c.zoom ∧
    (normalizeCapabilities c).colorTemperature = c.colorTemperature ∧
    (normalizeCapabilities c).exposureCompensation = c.exposureCompensation ∧
    (normalizeCapabilities c).exposureTime = c.exposureTime ∧
    (normalizeCapabilities c).focusDistance = c.focusDistance :=
  ⟨fun h => bothBounds_isSome h, fun h => bothBounds_isSome h,
   fun h => bothBounds_isSome h, fun h => bothBounds_isSome h,
   rfl, rfl, rfl, rfl, rfl, rfl⟩

/-- Witness for C1: on the scenario device the guarded `frameRate` case
fires (both bounds defined), and on `rawIsoPartial` the one-bounded `iso`
is passed through unchanged. -/
theorem claim_C1_witness :
    ((scenarioRaw.frameRate.bind RawRange.min).isSome = true ∧
     (scenarioRaw.frameRate.bind RawRange.max).isSome = true) ∧
    (normalizeCapabilities rawIsoPartial).iso = rawIsoPartial.iso :=
  ⟨(claim_C1 scenarioRaw).1 (by decide),
   (claim_C1 rawIsoPartial).2.2.2.2.1⟩

/-- C1 counterexample: a raw capability object whose `iso` range has only
`min` defined still yields an `iso` field in the returned capabilities, so
a one-bounded raw range is not treated as absent as the claim states. -/
theorem claim_C1_counterexample :
    (normalizeCapabilities rawIsoPartial).iso.isSome = true ∧
    rawIsoPartial.iso.bind RawRange.max = none := by
  decide

/-- C10: every successful `getCameraCapabilities` run stops the probe
track it acquired before returning: the trace of a run that returns a
capabilities record contains `stopTrack`, and it stops exactly as many
tracks as streams it acquired, so no probe stream of its own is left
holding the device. -/
theorem claim_C10 (raw : Option RawCapabilities) (tr : List ProbeStep)
    (res : CameraCapabilities)
    (h : getCameraCapabilitiesRun raw = (tr, some res)) :
    ProbeStep.stopTrack ∈ tr ∧
    tr.count ProbeStep.stopTrack = tr.count ProbeStep.getUserMedia := by
  cases raw with
  | none => simp [getCameraCapabilitiesRun] at h
  | some r =>
      have htr : tr = [ProbeStep.getUserMedia, ProbeStep.readCapabilities,
          ProbeStep.readSettings, ProbeStep.stopTrack] := by
        have hfst := congrArg Prod.fst h
        simpa [getCameraCapabilitiesRun] using hfst.symm
      subst htr
      exact ⟨by decide, by decide⟩

/-- Witness for C10: the successful probe of the scenario device. -/
theorem claim_C10_witness :
    ProbeStep.stopTrack ∈ (getCameraCapabilitiesRun (some scenarioRaw)).1 ∧
    (getCameraCapabilitiesRun (some scenarioRaw)).1.count ProbeStep.stopTrack =
      (getCameraCapabilitiesRun (some scenarioRaw)).1.count
        ProbeStep.getUserMedia :=
  claim_C10 (some scenarioRaw) _ (normalizeCapabilities scenarioRaw) rfl

/-- C8 counterexample: the settings record produced by the end-to-end
scenario is not the record the claim writes, because `initCamera`
unconditionally writes the page's selected aspect ratio (16:9 on mount)
into the default settings, and the focus-distance change carries it along. -/
theorem claim_C8_counterexample : scenarioResult ≠ claimedC8Result := by
  intro h
  have h1 : scenarioResult.aspectRatio = some (16 / 9) := rfl
  rw [h] at h1
  simp [claimedC8Result] at h1

/-- C8, corrected: on the scenario device (`frameRate` 15-30, `focusMode`
continuous and manual, `focusDistance` 0-1 step 0.01) the defaults set
`frameRate = 30` and `focusMode = "continuous"`, and applying
`{focusDistance: 0.3}` yields `{frameRate: 30, aspectRatio: 16/9,
focusMode: "manual", focusDistance: 0.3}` — as the claim states except that
the record also carries the default aspect ratio 16:9. -/
theorem claim_C8 :
    scenarioDefaults.frameRate = some 30 ∧
    scenarioDefaults.focusMode = some "continuous" ∧
    scenarioResult =
      { frameRate := some 30
        aspectRatio := some (16 / 9)
        focusMode := some "manual"
        focusDistance := some (3 / 10) } :=
  ⟨rfl, rfl, rfl⟩

/-- C9: with `n > 1` enumerated cameras and the current device found at
index `i`, the switch action selects the device at index `(i + 1) % n` of
the enumerated list (round-robin, wrapping at the end); with one or zero
cameras it changes nothing. -/
theorem claim_C9 (cameras : List CameraDevice) (selected : String) (i : ℕ)
    (hn : 1 < cameras.length)
    (hfind : cameras.findIdx? (fun c => c.deviceId == selected) = some i) :
    (∃ next, cameras.get? ((i + 1) % cameras.length) = some next ∧
       handleSwitchCamera cameras selected = next.deviceId) ∧
    ∀ cams : List CameraDevice, cams.length ≤ 1 →
       handleSwitchCamera cams selected = selected := by
  constructor
  · have hlt : (i + 1) % cameras.length < cameras.length :=
      Nat.mod_lt _ (by omega)
    refine ⟨cameras.get ⟨(i + 1) % cameras.length, hlt⟩,
      List.get?_eq_get hlt, ?_⟩
    unfold handleSwitchCamera jsFindIndex
    rw [hfind]
    rw [if_neg (by omega)]
    have hcast : ((i : ℤ) + 1) % (cameras.length : ℤ) =
        (((i + 1) % cameras.length : ℕ) : ℤ) := by
      rw [Int.natCast_mod]
      push_cast
      ring_nf
    simp only [hcast, Int.toNat_natCast, List.get?_eq_get hlt]
  · intro cams hle
    unfold handleSwitchCamera
    rw [if_pos hle]

/-- Witness for C9: three cameras with the last one selected wrap around
to the first, and a single-camera list is left unchanged. -/
theorem claim_C9_witness :
    (∃ next, threeCameras.get? ((2 + 1) % threeCameras.length) = some next ∧
       handleSwitchCamera threeCameras "cam-c" = next.deviceId) ∧
    ∀ cams : List CameraDevice, cams.length ≤ 1 →
       handleSwitchCamera cams "cam-c" = "cam-c" :=
  claim_C9 threeCameras "cam-c" 2 (by decide) (by decide)

/-- C2, corrected: merging a settings change forces the paired mode to
"manual" in the same transaction for exposure time and ISO (when the
exposure modes include "manual") and for focus distance (when the focus
modes include "manual"); but `handleSettingChange` has no such rule for
color temperature — setting it leaves `whiteBalanceMode` exactly as it
was, even when the white-balance modes include "manual". -/
theorem claim_C2 (caps : CameraCapabilities) (s : CameraSettings) :
    (∀ v : ℚ, jsIncludes caps.exposureMode "manual" = true →
       (handleSettingChange (some caps) s
           (SettingChange.exposureTime v)).exposureMode = some "manual" ∧
       (handleSettingChange (some caps) s
           (SettingChange.iso v)).exposureMode = some "manual") ∧
    (∀ v : ℚ, jsIncludes caps.focusMode "manual" = true →
       (handleSettingChange (some caps) s
           (SettingChange.focusDistance v)).focusMode = some "manual") ∧
    (∀ v : ℚ,
       (handleSettingChange (some caps) s
           (SettingChange.colorTemperature v)).whiteBalanceMode =
         s.whiteBalanceMode) := by
  refine ⟨fun v h => ⟨?_, ?_⟩, fun v h => ?_, fun v => ?_⟩
  · simp [handleSettingChange, capExposureManual, setField,
      SettingChange.isExposureTime, SettingChange.isIso,
      SettingChange.isFocusDistance, h]
  · simp [handleSettingChange, capExposureManual, setField,
      SettingChange.isExposureTime, SettingChange.isIso,
      SettingChange.isFocusDistance, h]
  · simp [handleSettingChange, capFocusManual, setField,
      SettingChange.isExposureTime, SettingChange.isIso,
      SettingChange.isFocusDistance, h]
  · simp [handleSettingChange, setField, SettingChange.isExposureTime,
      SettingChange.isIso, SettingChange.isFocusDistance]

/-- Witness for C2 at capabilities listing manual exposure and focus. -/
theorem claim_C2_witness :
    (handleSettingChange (some capsManualBoth) {}
        (SettingChange.exposureTime 8)).exposureMode = some "manual" ∧
    (handleSettingChange (some capsManualBoth) {}
        (SettingChange.focusDistance (3 / 10))).focusMode = some "manual" :=
  ⟨((claim_C2 capsManualBoth {}).1 8 (by decide)).1,
   (claim_C2 capsManualBoth {}).2.1 (3 / 10) (by decide)⟩

/-- C2 counterexample: with capabilities whose white-balance modes include
"manual" and the mode currently "continuous", setting `colorTemperature`
leaves `whiteBalanceMode` at "continuous" — an auto mode together with an
explicit manual value, contradicting the claim for this dimension. -/
theorem claim_C2_counterexample :
    jsIncludes capsWithManualWB.whiteBalanceMode "manual" = true ∧
    (handleSettingChange (some capsWithManualWB) settingsAutoWB
        (SettingChange.colorTemperature 5000)).whiteBalanceMode =
      some "continuous" := by
  decide

/-- C5, corrected: with `exposureMode` "manual" and both `iso` and
`exposureTime` set to nonzero values, clearing only `iso` leaves
`exposureMode` at "manual", and then clearing `exposureTime` sets it to
"continuous" — and symmetrically when `exposureTime` is cleared first. The
nonzero requirement is forced by the source's JavaScript truthiness test
(`!newSettings.exposureTime`): a sibling field commanded to 0 is treated as
already cleared. -/
theorem claim_C5 (s : CameraSettings) (i t : ℚ)
    (hi : s.iso = some i) (ht : s.exposureTime = some t)
    (hm : s.exposureMode = some "manual") :
    (t ≠ 0 →
      (isoAutoClick s).exposureMode = some "manual" ∧
      (exposureTimeAutoClick (isoAutoClick s)).exposureMode =
        some "continuous") ∧
    (i ≠ 0 →
      (exposureTimeAutoClick s).exposureMode = some "manual" ∧
      (isoAutoClick (exposureTimeAutoClick s)).exposureMode =
        some "continuous") := by
  constructor
  · intro ht0
    have hbt : (t == 0) = false := by simpa using ht0
    constructor
    · simp [isoAutoClick, jsTruthyNum, ht, hbt, hm]
    · simp [isoAutoClick, exposureTimeAutoClick, jsTruthyNum, ht, hbt, hm]
  · intro hi0
    have hbi : (i == 0) = false := by simpa using hi0
    constructor
    · simp [exposureTimeAutoClick, jsTruthyNum, hi, hbi, hm]
    · simp [isoAutoClick, exposureTimeAutoClick, jsTruthyNum, hi, hbi, hm]

/-- Witness for C5 at ISO 400 and exposure time 8. -/
theorem claim_C5_witness :
    ((isoAutoClick settingsBothManual).exposureMode = some "manual" ∧
     (exposureTimeAutoClick (isoAutoClick settingsBothManual)).exposureMode =
       some "continuous") ∧
    ((exposureTimeAutoClick settingsBothManual).exposureMode =
       some "manual" ∧
     (isoAutoClick (exposureTimeAutoClick settingsBothManual)).exposureMode =
       some "continuous") :=
  ⟨(claim_C5 settingsBothManual 400 8 rfl rfl rfl).1 (by norm_num),
   (claim_C5 settingsBothManual 400 8 rfl rfl rfl).2 (by norm_num)⟩

/-- C5 counterexample: with `iso = 100` and `exposureTime = 0` both set and
`exposureMode` "manual", clearing only `iso` flips `exposureMode` to
"continuous" although the sibling `exposureTime` is still set — the claim's
"stays manual while a sibling is set" fails at the value 0. -/
theorem claim_C5_counterexample :
    settingsZeroShutter.iso.isSome = true ∧
    settingsZeroShutter.exposureTime.isSome = true ∧
    settingsZeroShutter.exposureMode = some "manual" ∧
    (isoAutoClick settingsZeroShutter).exposureMode = some "continuous" := by
  decide

/-- C3 counterexample: with a live stream and `frameRate` 30 as the
last-known-good settings, a settings change to 60 whose in-place apply
fails leaves the stored settings different from the pre-change settings —
the code updates the settings state before applying and the catch block
only logs, so no revert to the last-known-good record happens. -/
theorem claim_C3_counterexample :
    (handleSettingChangeRun none pageStateLive (SettingChange.frameRate 60)
        false).1.settings ≠ pageStateLive.settings := by
  intro h
  have h1 : (handleSettingChangeRun none pageStateLive
      (SettingChange.frameRate 60) false).1.settings.frameRate =
        some 60 := rfl
  rw [h] at h1
  simp [pageStateLive] at h1

/-- C3, corrected: when the in-place apply of a merged settings change
fails, `handleSettingChange` keeps the newly merged settings (it does not
revert to the pre-change record) while the previous stream stays attached;
in the aspect-ratio path, when the fallback re-acquisition also fails, the
new aspect ratio is likewise kept, the old stream has been stopped and
detached (the session holds no stream), and an error is surfaced. -/
theorem claim_C3 (caps : Option CameraCapabilities) (st : PageState)
    (ch : SettingChange) (k : ℕ) (h : st.stream = some k) :
    ((handleSettingChangeRun caps st ch false).1.settings =
       handleSettingChange caps st.settings ch ∧
     (handleSettingChangeRun caps st ch false).1.stream = st.stream) ∧
    (∀ ratio : ℚ, ∀ sid : ℕ,
       (aspectRatioClickRun st ratio false false sid).1.settings.aspectRatio =
         some ratio ∧
       (aspectRatioClickRun st ratio false false sid).1.stream = none ∧
       (aspectRatioClickRun st ratio false false sid).1.errorShown = true) := by
  constructor
  · simp [handleSettingChangeRun, h]
  · intro ratio sid
    simp [aspectRatioClickRun, h]

/-- Witness for C3 at the live page state. -/
theorem claim_C3_witness :
    (handleSettingChangeRun none pageStateLive (SettingChange.frameRate 60)
        false).1.stream = pageStateLive.stream ∧
    (aspectRatioClickRun pageStateLive (4 / 3) false false 7).1.stream =
      none :=
  ⟨(claim_C3 none pageStateLive (SettingChange.frameRate 60) 0 rfl).1.2,
   ((claim_C3 none pageStateLive (SettingChange.frameRate 60) 0 rfl).2
      (4 / 3) 7).2.1⟩

/-- C4 counterexample: a failed in-place apply of a generic settings change
(frame rate, via `handleSettingChange`) triggers no fallback at all — the
trace holds no stop and no re-acquisition, contradicting the claim's "for
every settings change ... falls back exactly once". -/
theorem claim_C4_counterexample :
    (handleSettingChangeRun none pageStateLive (SettingChange.frameRate 60)
        false).2.countP CamAction.isAcquire = 0 ∧
    (handleSettingChangeRun none pageStateLive (SettingChange.frameRate 60)
        false).2.countP CamAction.isStop = 0 := by
  decide

/-- C4, corrected: only the aspect-ratio path implements the fallback.
There, an in-place rejection stops the current stream and re-acquires with
the full merged settings exactly once, and when the fallback succeeds the
session holds the re-acquired live stream (never zero tracks); a failed
in-place apply of any other settings change performs no fallback and
leaves the stream as it was. -/
theorem claim_C4 (st : PageState) (k : ℕ) (h : st.stream = some k) :
    (∀ ratio : ℚ, ∀ sid : ℕ, ∀ fallbackOk : Bool,
       (aspectRatioClickRun st ratio false fallbackOk sid).2.countP
           CamAction.isStop = 1 ∧
       (aspectRatioClickRun st ratio false fallbackOk sid).2.countP
           CamAction.isAcquire = 1 ∧
       CamAction.acquireStream { st.settings with aspectRatio := some ratio } ∈
         (aspectRatioClickRun st ratio false fallbackOk sid).2 ∧
       (fallbackOk = true →
         (aspectRatioClickRun st ratio false fallbackOk sid).1.stream =
           some sid)) ∧
    (∀ caps ch,
       (handleSettingChangeRun caps st ch false).2.countP
           CamAction.isAcquire = 0 ∧
       (handleSettingChangeRun caps st ch false).2.countP
           CamAction.isStop = 0 ∧
       (handleSettingChangeRun caps st ch false).1.stream = st.stream) := by
  constructor
  · intro ratio sid fallbackOk
    cases fallbackOk <;>
      simp [aspectRatioClickRun, h, List.countP_cons, CamAction.isStop,
        CamAction.isAcquire]
  · intro caps ch
    simp [handleSettingChangeRun, h, List.countP_cons, CamAction.isStop,
      CamAction.isAcquire]

/-- Witness for C4 at the live page state, ratio 4:3, both fallback
outcomes exercised through the successful one. -/
theorem claim_C4_witness :
    (aspectRatioClickRun pageStateLive (4 / 3) false true 7).2.countP
        CamAction.isAcquire = 1 ∧
    (aspectRatioClickRun pageStateLive (4 / 3) false true 7).1.stream =
      some 7 :=
  ⟨((claim_C4 pageStateLive 0 rfl).1 (4 / 3) 7 true).2.1,
   ((claim_C4 pageStateLive 0 rfl).1 (4 / 3) 7 true).2.2.2 rfl⟩

/-- C6: on visibility restore with a live session, (a) a track that ended
or is disabled makes the routine stop the old stream and re-acquire with
exactly the current `DesiredSettings`, unchanged; (b) a still-live track
with a stalled sink (paused, ended or under-buffered) is resumed without
re-acquisition; the routine re-acquires after a resume attempt only when
the attempt failed with an error other than the benign superseded-request
`AbortError`. -/
theorem claim_C6 (settings : CameraSettings) (track : TrackState)
    (rest : List TrackState) (video : VideoElemState)
    (play : PlayOutcome) :
    ((track.readyState = "ended" ∨ track.enabled = false) →
       handleVisibilityChange false (some (track :: rest)) true settings
           video play =
         [VisAction.stopOldStream, VisAction.acquire settings]) ∧
    (track.readyState ≠ "ended" → track.enabled = true →
       (video.paused ∨ video.ended ∨ video.readyState < 2) →
       handleVisibilityChange false (some (track :: rest)) true settings
           video PlayOutcome.ok = [VisAction.resumePlay] ∧
       handleVisibilityChange false (some (track :: rest)) true settings
           video (PlayOutcome.err "AbortError") = [VisAction.resumePlay] ∧
       (∀ n, n ≠ "AbortError" →
          handleVisibilityChange false (some (track :: rest)) true settings
              video (PlayOutcome.err n) =
            [VisAction.resumePlay, VisAction.stopOldStream,
             VisAction.acquire settings])) := by
  constructor
  · intro hbad
    rcases hbad with hb | hb <;> simp [handleVisibilityChange, hb]
  · intro hne hen hstall
    have hcond : ¬(track.readyState = "ended" ∨ track.enabled = false) := by
      rintro (hc | hc)
      · exact hne hc
      · rw [hen] at hc
        cases hc
    refine ⟨?_, ?_, fun n hn => ?_⟩
    · simp [handleVisibilityChange, if_neg hcond, if_pos hstall]
    · simp [handleVisibilityChange, if_neg hcond, if_pos hstall]
    · simp [handleVisibilityChange, if_neg hcond, if_pos hstall, hn]

/-- Witness for C6: an ended track forces re-acquisition with the held
settings; a live track with a paused sink and a non-benign play failure
resumes, then falls back to re-acquisition. -/
theorem claim_C6_witness :
    handleVisibilityChange false
        (some [{ readyState := "ended", enabled := true }]) true
        { frameRate := some 30 }
        { paused := false, ended := false, readyState := 4 }
        PlayOutcome.ok =
      [VisAction.stopOldStream, VisAction.acquire { frameRate := some 30 }] ∧
    handleVisibilityChange false
        (some [{ readyState := "live", enabled := true }]) true
        { frameRate := some 30 }
        { paused := true, ended := false, readyState := 4 }
        (PlayOutcome.err "NotReadableError") =
      [VisAction.resumePlay, VisAction.stopOldStream,
       VisAction.acquire { frameRate := some 30 }] :=
  ⟨(claim_C6 { frameRate := some 30 } { readyState := "ended", enabled := true }
      [] { paused := false, ended := false, readyState := 4 }
      PlayOutcome.ok).1 (Or.inl rfl),
   ((claim_C6 { frameRate := some 30 } { readyState := "live", enabled := true }
      [] { paused := true, ended := false, readyState := 4 }
      PlayOutcome.ok).2 (by decide) rfl (Or.inl rfl)).2.2
     "NotReadableError" (by decide)⟩

theorem hasKey_append (k : CKey) (l1 l2 : List (CKey × CVal)) :
    hasKey k (l1 ++ l2) = (hasKey k l1 || hasKey k l2) := by
  simp [hasKey, List.any_append]

theorem hasKey_definedNumEntry (k k' : CKey) (q : Option ℚ) :
    hasKey k (definedNumEntry k' q) =
      (if k' = k then q.isSome else false) := by
  cases q <;> by_cases hk : k' = k <;>
    simp [definedNumEntry, hasKey, hk]

theorem hasKey_definedBoolEntry (k k' : CKey) (b : Option Bool) :
    hasKey k (definedBoolEntry k' b) =
      (if k' = k then b.isSome else false) := by
  cases b <;> by_cases hk : k' = k <;>
    simp [definedBoolEntry, hasKey, hk]

theorem hasKey_truthyStrEntry (k k' : CKey) (s : Option String) :
    hasKey k (truthyStrEntry k' s) =
      (if k' = k then (truthyString s).isSome else false) := by
  cases s with
  | none => by_cases hk : k' = k <;> simp [truthyStrEntry, hasKey, truthyString, hk]
  | some v =>
      by_cases hv : v = "" <;> by_cases hk : k' = k <;>
        simp [truthyStrEntry, hasKey, truthyString, hv, hk]

theorem hasKey_numEntry (k k' : CKey) (q : Option ℚ) :
    hasKey k (numEntry k' q) =
      (if k' = k then jsTruthyNum q else false) := by
  cases q with
  | none => by_cases hk : k' = k <;> simp [numEntry, hasKey, jsTruthyNum, hk]
  | some v =>
      by_cases hv : v = 0 <;> by_cases hk : k' = k <;>
        simp [numEntry, hasKey, jsTruthyNum, hv, hk]

theorem mem_numEntry {p : CKey × CVal} {k : CKey} {q : Option ℚ}
    (hp : p ∈ numEntry k q) : p.1 = k := by
  cases q with
  | none => simp [numEntry] at hp
  | some v =>
      by_cases hv : v = 0
      · simp [numEntry, hv] at hp
      · simp [numEntry, hv] at hp
        rw [hp]

theorem hasKey_exactStrEntry (k k' : CKey) (s : Option String) :
    hasKey k (exactStrEntry k' s) =
      (if k' = k then (truthyString s).isSome else false) := by
  cases s with
  | none => by_cases hk : k' = k <;> simp [exactStrEntry, hasKey, truthyString, hk]
  | some v =>
      by_cases hv : v = "" <;> by_cases hk : k' = k <;>
        simp [exactStrEntry, hasKey, truthyString, hv, hk]

theorem mem_exactStrEntry {p : CKey × CVal} {k : CKey} {s : Option String}
    (hp : p ∈ exactStrEntry k s) : p.1 = k := by
  cases s with
  | none => simp [exactStrEntry] at hp
  | some v =>
      by_cases hv : v = ""
      · simp [exactStrEntry, hv] at hp
      · simp [exactStrEntry, hv] at hp
        rw [hp]

/-- C7: constraint building omits every `undefined` field — a settings
field that is `none` never appears as a key of the acquisition constraint
object of `startCamera`, of its advanced track-constraint object, or of
the two track-constraint objects of `applySettingsToStream` — and the
acquisition-time object contains at most the keys `deviceId`, `frameRate`,
`width` and `height`, so the exposure, focus, white-balance, zoom, torch
and color-temperature fields can appear only in the post-acquisition track
constraints. -/
theorem claim_C7 (s : CameraSettings) (d : Option String) :
    (∀ p ∈ acquisitionConstraints d (some s),
       p.1 = CKey.deviceId ∨ p.1 = CKey.frameRate ∨ p.1 = CKey.width ∨
         p.1 = CKey.height) ∧
    (d = none →
      hasKey CKey.deviceId (acquisitionConstraints d (some s)) = false) ∧
    (s.frameRate = none →
      hasKey CKey.frameRate (acquisitionConstraints d (some s)) = false ∧
      hasKey CKey.frameRate (applyMediaTrackConstraints s) = false) ∧
    (s.width = none →
      hasKey CKey.width (acquisitionConstraints d (some s)) = false ∧
      hasKey CKey.width (applyMediaTrackConstraints s) = false) ∧
    (s.height = none →
      hasKey CKey.height (acquisitionConstraints d (some s)) = false ∧
      hasKey CKey.height (applyMediaTrackConstraints s) = false) ∧
    (s.aspectRatio = none →
      hasKey CKey.aspectRatio (startCameraAdvancedConstraints s) = false ∧
      hasKey CKey.aspectRatio (applyMediaTrackConstraints s) = false) ∧
    (s.colorTemperature = none →
      hasKey CKey.colorTemperature (startCameraAdvancedConstraints s) = false ∧
      hasKey CKey.colorTemperature (applyImageCaptureConstraints s) = false) ∧
    (s.exposureCompensation = none →
      hasKey CKey.exposureCompensation (startCameraAdvancedConstraints s) = false ∧
      hasKey CKey.exposureCompensation (applyImageCaptureConstraints s) = false) ∧
    (s.exposureMode = none →
      hasKey CKey.exposureMode (startCameraAdvancedConstraints s) = false ∧
      hasKey CKey.exposureMode (applyImageCaptureConstraints s) = false) ∧
    (s.exposureTime = none →
      hasKey CKey.exposureTime (startCameraAdvancedConstraints s) = false ∧
      hasKey CKey.exposureTime (applyImageCaptureConstraints s) = false) ∧
    (s.focusDistance = none →
      hasKey CKey.focusDistance (startCameraAdvancedConstraints s) = false ∧
      hasKey CKey.focusDistance (applyImageCaptureConstraints s) = false) ∧
    (s.focusMode = none →
      hasKey CKey.focusMode (startCameraAdvancedConstraints s) = false ∧
      hasKey CKey.focusMode (applyImageCaptureConstraints s) = false) ∧
    (s.iso = none →
      hasKey CKey.iso (startCameraAdvancedConstraints s) = false ∧
      hasKey CKey.iso (applyImageCaptureConstraints s) = false) ∧
    (s.torch = none →
      hasKey CKey.torch (startCameraAdvancedConstraints s) = false ∧
      hasKey CKey.torch (applyImageCaptureConstraints s) = false) ∧
    (s.whiteBalanceMode = none →
      hasKey CKey.whiteBalanceMode (startCameraAdvancedConstraints s) = false ∧
      hasKey CKey.whiteBalanceMode (applyImageCaptureConstraints s) = false) ∧
    (s.zoom = none →
      hasKey CKey.zoom (startCameraAdvancedConstraints s) = false ∧
      hasKey CKey.zoom (applyImageCaptureConstraints s) = false) := by
  refine ⟨?_, ?_, ?_, ?_, ?_, ?_, ?_, ?_, ?_, ?_, ?_, ?_, ?_, ?_, ?_, ?_⟩
  · intro p hp
    simp only [acquisitionConstraints, List.mem_append] at hp
    rcases hp with ((hd | hf) | hw) | hh
    · exact Or.inl (mem_exactStrEntry hd)
    · exact Or.inr (Or.inl (mem_numEntry hf))
    · exact Or.inr (Or.inr (Or.inl (mem_numEntry hw)))
    · exact Or.inr (Or.inr (Or.inr (mem_numEntry hh)))
  all_goals intro h
  all_goals
    simp [acquisitionConstraints, startCameraAdvancedConstraints,
      applyMediaTrackConstraints, applyImageCaptureConstraints,
      hasKey_append, hasKey_exactStrEntry, hasKey_numEntry,
      hasKey_definedNumEntry, hasKey_definedBoolEntry, hasKey_truthyStrEntry,
      truthyString, jsTruthyNum, Option.bind, h]

/-- Witness for C7 at the empty settings record with no device id: no key
reaches the acquisition object and no advanced key reaches the track
object. -/
theorem claim_C7_witness :
    hasKey CKey.deviceId (acquisitionConstraints none (some {})) = false ∧
    hasKey CKey.frameRate (acquisitionConstraints none (some {})) = false ∧
    hasKey CKey.exposureTime (startCameraAdvancedConstraints {}) = false := by
  obtain ⟨hsub, hdev, hfr, hw, hh, har, hct, hec, hem, het, hfd, hfm,
    hiso, hto, hwb, hz⟩ := claim_C7 {} none
  exact ⟨hdev rfl, (hfr rfl).1, (het rfl).1⟩
